import Mathlib

/-!
Verification development for the Weather-Logger repository.

Shallow embedding conventions:
* Python floats are modelled as rationals (`ℚ`); machine timestamps as
  rationals counting seconds (the whole-second part is what pandas "1s"
  resampling groups by).
* Python strings are `List Char`; `str.isprintable` is kept abstract as a
  predicate `Char → Bool` because no claim depends on which characters are
  printable.
* Python dictionaries whose values are all numbers are association lists
  `List (String × ℚ)` in insertion order, matching the iteration order the
  code relies on.
* Fallible parsing returns `Option`.
-/

namespace WeatherLogger

/-! ## Floating-number string model (utils.py and CPython float()) -/

/-- Digits of a decimal literal folded to a natural number. -/
def digitsToNat (ds : List Char) : ℕ :=
  ds.foldl (fun a c => 10 * a + (c.toNat - '0'.toNat)) 0

/-- Split one optional leading sign off a character list; the Bool is true
for a leading minus, mirroring `[-+]?` in the regex and the sign handling
of `float()`. -/
def signSplit : List Char → Bool × List Char
  | '+' :: r => (false, r)
  | '-' :: r => (true, r)
  | s => (false, s)

/-- Characters after the optional sign. -/
def afterSign (s : List Char) : List Char := (signSplit s).2

/-- Whether the optional sign is a minus. -/
def isNegSign (s : List Char) : Bool := (signSplit s).1

/-- Leading run of decimal digits after the sign (the integer part). -/
def intPart (s : List Char) : List Char := ((afterSign s).span Char.isDigit).1

/-- What remains after the integer part. -/
def afterInt (s : List Char) : List Char := ((afterSign s).span Char.isDigit).2

/-- Digit run after a decimal point (the fractional part). -/
def fracPart (s : List Char) : List Char := ((afterInt s).tail.span Char.isDigit).1

/-- What remains after the fractional part. -/
def afterFrac (s : List Char) : List Char := ((afterInt s).tail.span Char.isDigit).2

/-- Digit run of an exponent suffix `[eE][+-]?digits`. -/
def expDigits (r : List Char) : List Char := ((afterSign r.tail).span Char.isDigit).1

/-- What remains after the exponent digits. -/
def expRest (r : List Char) : List Char := ((afterSign r.tail).span Char.isDigit).2

/-- Whether the exponent sign is a minus. -/
def expNeg (r : List Char) : Bool := isNegSign r.tail

/-- Value of an optional exponent suffix: `[]` means no exponent (factor 1);
`[eE][+-]?digits` must consume the rest of the string. `none` on a malformed
suffix. Shared grammar of the regex in `utils.is_valid_float_string` and of
CPython's `float()`. -/
def expPart (r : List Char) : Option ℚ :=
  if r = [] then some 1
  else if r.head? = some 'e' ∨ r.head? = some 'E' then
    if expDigits r = [] ∨ expRest r ≠ [] then none
    else if expNeg r then some ((10 ^ digitsToNat (expDigits r) : ℚ)⁻¹)
    else some ((10 : ℚ) ^ digitsToNat (expDigits r))
  else none

/-- Recogniser for the exponent suffix of the regex
`([eE][-+]?[0-9]+)?$`: empty rest is accepted, otherwise the suffix must be
well-formed and reach the end of the string. -/
def matchExpEnd (r : List Char) : Bool :=
  if r = [] then true
  else if r.head? = some 'e' ∨ r.head? = some 'E' then
    if expDigits r = [] ∨ expRest r ≠ [] then false else true
  else false

/-- Model of CPython `float(str)` on an already-stripped string, returning
the parsed value: `[+-]?` then `digits`, `digits '.' digits*`, or
`'.' digits+`, then an optional exponent. This is a sound
under-approximation of `float()` (it omits `inf`/`nan`, surrounding
whitespace and digit-group underscores, each of which only enlarges the set
of accepted strings), so `isSome` here implies the real parse succeeds. -/
def pyFloatParse? (s : List Char) : Option ℚ :=
  if (afterInt s).head? = some '.' then
    if intPart s = [] ∧ fracPart s = [] then none
    else
      (expPart (afterFrac s)).map (fun e =>
        (if isNegSign s then (-1 : ℚ) else 1) *
          ((digitsToNat (intPart s) : ℚ) +
            (digitsToNat (fracPart s) : ℚ) / 10 ^ (fracPart s).length) * e)
  else if intPart s = [] then none
  else
    (expPart (afterInt s)).map (fun e =>
      (if isNegSign s then (-1 : ℚ) else 1) * (digitsToNat (intPart s) : ℚ) * e)

/-- Recogniser for the regex in `utils.is_valid_float_string`:
`^[-+]?[0-9]*\.?[0-9]+([eE][-+]?[0-9]+)?$`. The mantissa language
`[0-9]*\.?[0-9]+` (with backtracking) is exactly `digits+` or
`digits* '.' digits+`, which is what the branches below decide. -/
def matchFloatRe (s : List Char) : Bool :=
  if (afterInt s).head? = some '.' then
    if fracPart s = [] then false else matchExpEnd (afterFrac s)
  else if intPart s = [] then false
  else matchExpEnd (afterInt s)

/-- `utils.is_valid_float_string`: `none` models a non-string argument;
otherwise drop non-printable characters, require the result non-empty and
matching the float regex. -/
def is_valid_float_string (printable : Char → Bool) : Option (List Char) → Bool
  | none => false
  | some s => !(s.filter printable).isEmpty && matchFloatRe (s.filter printable)

/-- `utils.clean_sensor_value`: a non-string becomes `"0.0"`; otherwise the
non-printable characters are dropped and the result is kept only if
`is_valid_float_string` accepts it, else `"0.0"`. -/
def clean_sensor_value (printable : Char → Bool) : Option (List Char) → List Char
  | none => "0.0".toList
  | some s =>
    if is_valid_float_string printable (some (s.filter printable)) then s.filter printable
    else "0.0".toList

/-! ## Rounding model (utils.round_only_roundable_dict_keys) -/

/-- Round-half-to-even to an integer, the tie rule of Python `round`. -/
def roundHalfEven (x : ℚ) : ℤ :=
  if x - ⌊x⌋ < 1 / 2 then ⌊x⌋
  else if 1 / 2 < x - ⌊x⌋ then ⌊x⌋ + 1
  else if ⌊x⌋ % 2 = 0 then ⌊x⌋ else ⌊x⌋ + 1

/-- Model of Python `round(x, 8)`. -/
def round8 (x : ℚ) : ℚ := (roundHalfEven (x * 10 ^ 8) : ℚ) / 10 ^ 8

/-- `utils.round_only_roundable_dict_keys`: rebuild the dictionary in
iteration order, rounding exactly the values whose key is listed. -/
def round_only_roundable_dict_keys (my_data : List (String × ℚ)) (keys_to_round : List String) :
    List (String × ℚ) :=
  my_data.map (fun kv => if kv.1 ∈ keys_to_round then (kv.1, round8 kv.2) else kv)

/-- The key list of `data_processor.prepare_data_for_logging`. Note that
`"Error"` is in the list and `"tNow"` is not. -/
def keys_to_round : List String :=
  ["u_m_s", "v_m_s", "w_m_s", "2dSpeed_m_s", "3DSpeed_m_s", "Azimuth_deg",
   "Elev_deg", "Press_Pa", "Temp_C", "Hum_RH", "SonicTemp_C", "Error"]

/-- `data_processor.prepare_data_for_logging`. -/
def prepare_data_for_logging (data_dict : List (String × ℚ)) : List (String × ℚ) :=
  round_only_roundable_dict_keys data_dict keys_to_round

/-! ## Calibration (data_processor.process_raw_data) -/

/-- The twelve raw fields of one anemometer line, in source order. -/
structure RawFields where
  u : ℚ
  v : ℚ
  w : ℚ
  d2 : ℚ
  d3 : ℚ
  az : ℚ
  ele : ℚ
  press_raw : ℚ
  temp : ℚ
  rh : ℚ
  sonic : ℚ
  err_cnt : ℚ
deriving DecidableEq

/-- One processed sample: timestamp, eleven physical fields and the error
count, matching the `processed_values` array (indices 0..12) and the
`data_dict` built by `process_raw_data`. -/
structure ProcessedValues where
  tNow : ℚ
  u : ℚ
  v : ℚ
  w : ℚ
  d2 : ℚ
  d3 : ℚ
  az : ℚ
  ele : ℚ
  press : ℚ
  temp : ℚ
  rh : ℚ
  sonic : ℚ
  err : ℚ
deriving DecidableEq

/-- `float(values[i])`: `none` models both IndexError (index out of range)
and ValueError (string not float-parseable). -/
def floatAt (values : List (List Char)) (i : ℕ) : Option ℚ :=
  (values.get? i).bind pyFloatParse?

/-- The try-block of `process_raw_data`: parse the first 12 entries in
order; any failure aborts the whole block (all-or-nothing, as the single
try/except does). -/
def parseRaw12 (values : List (List Char)) : Option RawFields := do
  let u ← floatAt values 0
  let v ← floatAt values 1
  let w ← floatAt values 2
  let d2 ← floatAt values 3
  let d3 ← floatAt values 4
  let az ← floatAt values 5
  let ele ← floatAt values 6
  let press_raw ← floatAt values 7
  let temp ← floatAt values 8
  let rh ← floatAt values 9
  let sonic ← floatAt values 10
  let err_cnt ← floatAt values 11
  pure ⟨u, v, w, d2, d3, az, ele, press_raw, temp, rh, sonic, err_cnt⟩

/-- `data_processor.process_raw_data`. On success the three corrections are
applied and the error field is the parsed 12th raw value; on any parse
failure all eleven physical fields are zero and the error field is the
passed-in `error_count + 1`. `t_now` stands for `datetime.now()`. -/
def process_raw_data (values : List (List Char)) (error_count : ℚ) (t_now : ℚ) :
    ProcessedValues :=
  match parseRaw12 values with
  | some r =>
    { tNow := t_now, u := r.u, v := r.v, w := r.w, d2 := r.d2, d3 := r.d3,
      az := r.az, ele := r.ele,
      press := (0.02 * r.press_raw + 950) * 100,
      temp := 100 * (1 / 4000 : ℚ) * r.temp - 50,
      rh := 100 * (1 / 4000 : ℚ) * r.rh,
      sonic := r.sonic, err := r.err_cnt }
  | none =>
    { tNow := t_now, u := 0, v := 0, w := 0, d2 := 0, d3 := 0,
      az := 0, ele := 0, press := 0, temp := 0, rh := 0, sonic := 0,
      err := error_count + 1 }

/-! ## Row preparation (threads.py) -/

/-- The dictionary the HighFrequencyLogger builds from a dequeued sample and
passes to `prepare_data_for_logging` (threads.py, `HighFrequencyLogger.run`). -/
def hfDataDict (pv : ProcessedValues) : List (String × ℚ) :=
  [("tNow", pv.tNow), ("u_m_s", pv.u), ("v_m_s", pv.v), ("w_m_s", pv.w),
   ("2dSpeed_m_s", pv.d2), ("3DSpeed_m_s", pv.d3), ("Azimuth_deg", pv.az),
   ("Elev_deg", pv.ele), ("Press_Pa", pv.press), ("Temp_C", pv.temp),
   ("Hum_RH", pv.rh), ("SonicTemp_C", pv.sonic), ("Error", pv.err)]

/-- The rounded row the HighFrequencyLogger submits to the writer. -/
def hfRow (pv : ProcessedValues) : List (String × ℚ) :=
  prepare_data_for_logging (hfDataDict pv)

/-- Whole-second bucket of a timestamp, which is what
`pandas.resample("1s")` groups rows by. -/
def sec (t : ℚ) : ℤ := ⌊t⌋

/-- Earliest whole-second bucket present among the rows; row `[0]` of the
resampled frame belongs to this bucket. -/
def minSecond : List ProcessedValues → ℤ
  | [] => 0
  | r :: rs => rs.foldl (fun m x => min m (sec x.tNow)) (sec r.tNow)

/-- The rows that `resample("1s").mean()` averages into its first output
row: exactly the window entries lying in the earliest whole-second bucket. -/
def firstBucket (rows : List ProcessedValues) : List ProcessedValues :=
  rows.filter (fun r => decide (sec r.tNow = minSecond rows))

/-- Arithmetic mean of a list of rationals (0 on the empty list). -/
def meanQ (xs : List ℚ) : ℚ := xs.sum / xs.length

/-- The averaged 1 Hz row of `StandardLogger.run` (enough-data branch):
per-column mean over the first resample bucket, error taken from the most
recently dequeued sample, then `prepare_data_for_logging`. -/
def standardAvgRow (w : List ProcessedValues) (lastData : ProcessedValues) (ts : ℚ) :
    List (String × ℚ) :=
  prepare_data_for_logging
    [("tNow", ts),
     ("u_m_s", meanQ ((firstBucket w).map ProcessedValues.u)),
     ("v_m_s", meanQ ((firstBucket w).map ProcessedValues.v)),
     ("w_m_s", meanQ ((firstBucket w).map ProcessedValues.w)),
     ("2dSpeed_m_s", meanQ ((firstBucket w).map ProcessedValues.d2)),
     ("3DSpeed_m_s", meanQ ((firstBucket w).map ProcessedValues.d3)),
     ("Azimuth_deg", meanQ ((firstBucket w).map ProcessedValues.az)),
     ("Elev_deg", meanQ ((firstBucket w).map ProcessedValues.ele)),
     ("Press_Pa", meanQ ((firstBucket w).map ProcessedValues.press)),
     ("Temp_C", meanQ ((firstBucket w).map ProcessedValues.temp)),
     ("Hum_RH", meanQ ((firstBucket w).map ProcessedValues.rh)),
     ("SonicTemp_C", meanQ ((firstBucket w).map ProcessedValues.sonic)),
     ("Error", lastData.err)]

/-- The fallback 1 Hz row of `StandardLogger.run` (not-enough-data branch):
the latest sample's fields verbatim, then `prepare_data_for_logging`. -/
def standardLastRow (lastData : ProcessedValues) (ts : ℚ) : List (String × ℚ) :=
  prepare_data_for_logging
    [("tNow", ts), ("u_m_s", lastData.u), ("v_m_s", lastData.v),
     ("w_m_s", lastData.w), ("2dSpeed_m_s", lastData.d2),
     ("3DSpeed_m_s", lastData.d3), ("Azimuth_deg", lastData.az),
     ("Elev_deg", lastData.ele), ("Press_Pa", lastData.press),
     ("Temp_C", lastData.temp), ("Hum_RH", lastData.rh),
     ("SonicTemp_C", lastData.sonic), ("Error", lastData.err)]

/-- Appending one dequeued sample to the frame and trimming to the last 32
rows (threads.py, `StandardLogger.run`, `buffer_limit = 32`). -/
def appendTrim (w : List ProcessedValues) (x : ProcessedValues) : List ProcessedValues :=
  let w2 := w ++ [x]
  if 32 < w2.length then w2.drop (w2.length - 32) else w2

/-- Outcome of one StandardLogger cycle with a firing persist tick. -/
structure StdIterResult where
  window : List ProcessedValues
  lastData : Option ProcessedValues
  row : Option (List (String × ℚ))

/-- One cycle of `StandardLogger.run` in which the 1 Hz tick fires:
`enough_data_for_1hz` is evaluated on the frame *before* the queue drain
(line order of the source); the queue contents `incoming` are then drained
into the frame, the averaging (or fallback) row is built from the resulting
frame, and no row exists while `last_data is None`. -/
def standard_iteration (window : List ProcessedValues) (incoming : List ProcessedValues)
    (lastData : Option ProcessedValues) (ts : ℚ) : StdIterResult :=
  let enough := decide (32 ≤ window.length)
  let w2 := incoming.foldl appendTrim window
  let last2 := match incoming.getLast? with
    | some x => some x
    | none => lastData
  let row := match last2 with
    | none => none
    | some ld => some (if enough then standardAvgRow w2 ld ts else standardLastRow ld ts)
  ⟨w2, last2, row⟩

/-! ## Mode controller (threads.ModeMonitor.check_mode_command) -/

/-- Result of processing one control datagram: the shared mode value
afterwards, the boolean the method returns (True exactly on a mode change),
and the optional status reply sent via the transient socket. -/
structure ModeResult where
  newMode : ℚ
  changed : Bool
  statusReply : Option (List Char)

/-- `ModeMonitor.check_mode_command` on one received datagram. `cmd` is the
payload after `.decode().strip()`. The STATUS test
(`command.upper() == "STATUS"`) is tried first and never changes the mode;
then a float parse: an unequal value is stored and True returned, an equal
value or an unparseable payload falls through to `return False`. -/
def check_mode_command (cmd : List Char) (mode : ℚ) : ModeResult :=
  if cmd.map Char.toUpper = "STATUS".toList then
    { newMode := mode, changed := false,
      statusReply := some (("CURRENT_MODE:" ++ (if 0 < mode then "32Hz" else "1Hz")).toList) }
  else
    match pyFloatParse? cmd with
    | some v =>
      if v = mode then { newMode := mode, changed := false, statusReply := none }
      else { newMode := v, changed := true, statusReply := none }
    | none => { newMode := mode, changed := false, statusReply := none }

/-- Processing the same datagram `n` times in sequence; returns the final
mode and whether any call reported a mode change. -/
def repeat_mode_command (cmd : List Char) : ℕ → ℚ → ℚ × Bool
  | 0, m => (m, false)
  | n + 1, m =>
    let r := check_mode_command cmd m
    let rest := repeat_mode_command cmd n r.newMode
    (rest.1, r.changed || rest.2)

/-- StandardLogger's persist condition (threads.py:
`if time_for_1hz_update and sdl_mode.value == 0`). -/
def standard_writes (modeValue : ℚ) (time_for_1hz : Bool) : Bool :=
  time_for_1hz && decide (modeValue = 0)

/-- HighFrequencyLogger's processing condition (threads.py:
`if not data_queue.empty() and sdl_mode.value > 0`). -/
def high_freq_writes (modeValue : ℚ) (queue_nonempty : Bool) : Bool :=
  queue_nonempty && decide (0 < modeValue)

/-- The mode label the loggers display (threads.py:
`"32 Hz" if sdl_mode.value > 0 else "1 Hz"`). -/
def modeDisplay (modeValue : ℚ) : String :=
  if 0 < modeValue then "32 Hz" else "1 Hz"

/-! ## Queue push policies (weather_station.main) -/

/-- A `queue.Queue(maxsize = cap)` as seen by the producer. -/
structure BQueue (α : Type) where
  cap : ℕ
  items : List α
deriving DecidableEq

/-- `put(x, block=False)`: succeeds only while strictly below capacity,
otherwise raises Full (`none`). Never blocks. -/
def put_nowait {α : Type} (q : BQueue α) (x : α) : Option (BQueue α) :=
  if q.items.length < q.cap then some ⟨q.cap, q.items ++ [x]⟩ else none

/-- Push policy of the high-frequency and visualization queues: try a
non-blocking put; on Full, drain every pending item with `get_nowait` and
retry once; if still Full, log and drop. The Bool reports acceptance. -/
def push_drain_retry {α : Type} (q : BQueue α) (x : α) : BQueue α × Bool :=
  match put_nowait q x with
  | some q2 => (q2, true)
  | none =>
    match put_nowait (⟨q.cap, []⟩ : BQueue α) x with
    | some q2 => (q2, true)
    | none => (⟨q.cap, []⟩, false)

/-- Push policy of the standard queue: a single non-blocking put; on Full
the sample is skipped with a warning — no drain, no retry
(weather_station.py, the outer `except queue.Full`). -/
def push_standard_queue {α : Type} (q : BQueue α) (x : α) : BQueue α × Bool :=
  match put_nowait q x with
  | some q2 => (q2, true)
  | none => (q, false)

/-! ## Log rotation writer header discipline (logger.DataLogger) -/

/-- One file instance: whether the path already existed when opened, and how
many header and data rows have been written into it. -/
structure LogFile where
  preExisted : Bool
  headerWrites : ℕ
  rowWrites : ℕ
deriving DecidableEq

/-- Writer state: the current file instance plus the `first_log_line` and
`file_exists` flags of `DataLogger`, and the already-closed instances. -/
structure DLState where
  cur : LogFile
  first_log_line : Bool
  file_exists : Bool
  closed : List LogFile
deriving DecidableEq

/-- `DataLogger.open_new_logfile_at_current_time`: record whether the path
pre-existed, open for append, and arm `first_log_line`; the previous
instance is closed. `pre` is the `os.path.isfile` outcome. -/
def open_new_logfile (pre : Bool) (s : DLState) : DLState :=
  { cur := ⟨pre, 0, 0⟩, first_log_line := true, file_exists := pre,
    closed := s.cur :: s.closed }

/-- Writer state right after `DataLogger.__init__` opened the first file. -/
def initDL (pre : Bool) : DLState := ⟨⟨pre, 0, 0⟩, true, pre, []⟩

/-- Events hitting the writer: a pending rotation drained at the start of
`write_logfile` (closing and reopening, with `pre` the pre-existence of the
new path), or the body of one `write_logfile` call. -/
inductive LogEvent where
  | rotate (pre : Bool)
  | write
deriving DecidableEq

/-- One step of the writer. A `write` first emits the header if
`first_log_line` is set and the file did not pre-exist (logger.py,
`if self.first_log_line: ... if not self.file_exists: writeheader()`),
clears `first_log_line`, then appends the data row. -/
def stepDL (s : DLState) : LogEvent → DLState
  | .rotate pre => open_new_logfile pre s
  | .write =>
    let s1 :=
      if s.first_log_line then
        { s with
          cur := { s.cur with
            headerWrites := s.cur.headerWrites + (if s.file_exists then 0 else 1) },
          first_log_line := false }
      else s
    { s1 with cur := { s1.cur with rowWrites := s1.cur.rowWrites + 1 } }

/-- Run the writer from a fresh start over a sequence of events. -/
def runDL (pre : Bool) (evs : List LogEvent) : DLState :=
  evs.foldl stepDL (initDL pre)

/-- The header discipline a file instance must satisfy: at most one header,
and none at all if the file pre-existed at open time. -/
def headerOk (f : LogFile) : Prop :=
  f.headerWrites ≤ 1 ∧ (f.preExisted = true → f.headerWrites = 0)

/-! ## Concrete inputs used to instantiate and to refute claims -/

/-- A well-formed sensor line: 12 float-parseable strings. -/
def demoValues : List (List Char) :=
  ["1", "2", "3", "4", "5", "6", "7", "3000", "2800", "2500", "25", "0"].map String.toList

/-- The parse of `demoValues`. -/
def demoRaw : RawFields := ⟨1, 2, 3, 4, 5, 6, 7, 3000, 2800, 2500, 25, 0⟩

/-- A malformed sensor line (first field not float-parseable). -/
def badValues : List (List Char) := ["abc"].map String.toList

/-- Window sample in wall-clock second 0 with u = 0. -/
def cexEarly : ProcessedValues := ⟨1 / 2, 0, 0, 0, 0, 0, 0, 0, 0, 0, 0, 0, 0⟩

/-- Window sample in wall-clock second 1 with u = 2. -/
def cexLate : ProcessedValues := ⟨3 / 2, 2, 0, 0, 0, 0, 0, 0, 0, 0, 0, 0, 0⟩

/-- A 32-sample window straddling a second boundary: 16 samples in second 0,
16 in second 1. -/
def cexWindow : List ProcessedValues := List.replicate 16 cexEarly ++ List.replicate 16 cexLate

/-- A sample whose error count has more than 8 decimal places. -/
def cexTinyErr : ProcessedValues := ⟨0, 0, 0, 0, 0, 0, 0, 0, 0, 0, 0, 0, 1 / 10 ^ 9⟩

/-- A sample inside wall-clock second 0 with u = 3 and err = 9. -/
def sameSecSample : ProcessedValues := ⟨1 / 2, 3, 0, 0, 0, 0, 0, 0, 0, 0, 0, 0, 9⟩

/-- A 32-sample window entirely inside wall-clock second 0. -/
def sameSecWindow : List ProcessedValues := List.replicate 32 sameSecSample

/-- Two distinct queued samples for the queue-policy counterexample. -/
def qSampleA : ProcessedValues := ⟨0, 1, 0, 0, 0, 0, 0, 0, 0, 0, 0, 0, 0⟩

/-- Second distinct queued sample for the queue-policy counterexample. -/
def qSampleB : ProcessedValues := ⟨0, 2, 0, 0, 0, 0, 0, 0, 0, 0, 0, 0, 0⟩

/-- ASCII printability, a concrete instance of the abstract printability
predicate, used only to instantiate theorems. -/
def asciiPrintable (c : Char) : Bool := decide (' ' ≤ c ∧ c ≤ '~')

/-- Inductive invariant of the writer: the header discipline holds for the
current and all closed instances, no header has been written while
`first_log_line` is still set, and `file_exists` mirrors the current
instance's pre-existence. -/
def dlInv (s : DLState) : Prop :=
  headerOk s.cur ∧ (s.first_log_line = true → s.cur.headerWrites = 0) ∧
    s.file_exists = s.cur.preExisted ∧ ∀ f ∈ s.closed, headerOk f

/-! ## Helper lemmas -/

theorem filter_idem {α : Type} (p : α → Bool) (l : List α) :
    (l.filter p).filter p = l.filter p := by
  induction l with
  | nil => rfl
  | cons c t ih =>
    by_cases hc : p c = true <;> simp [List.filter_cons, hc, ih]

theorem matchExpEnd_expPart (r : List Char) (h : matchExpEnd r = true) :
    (expPart r).isSome = true := by
  unfold matchExpEnd at h
  unfold expPart
  split_ifs at h ⊢ <;> simp_all

theorem matchFloatRe_parses (s : List Char) (h : matchFloatRe s = true) :
    (pyFloatParse? s).isSome = true := by
  unfold matchFloatRe at h
  unfold pyFloatParse?
  split_ifs at h ⊢ with h1 h2 h3 h4
  all_goals simp_all [Option.isSome_map', matchExpEnd_expPart]

theorem firstBucket_of_same (rows : List ProcessedValues)
    (h : ∀ r ∈ rows, sec r.tNow = minSecond rows) : firstBucket rows = rows := by
  unfold firstBucket
  rw [List.filter_eq_self]
  intro a ha
  simpa using h a ha

/-! ## Claim theorems -/

section ClaimProofs

attribute [local semireducible] Rat.mul Rat.add Rat.sub Rat.inv Rat.ofScientific

/-- C5: calibration computes exactly pressure = (0.02*press_raw + 950)*100,
temperature = (100/4000)*temp_raw - 50 and humidity = (100/4000)*rh_raw
from the parsed raw fields, while u, v, w, the 2-D and 3-D speeds, azimuth,
elevation and sonic temperature pass through unchanged. -/
theorem claim5_calibration (values : List (List Char)) (error_count t_now : ℚ)
    (r : RawFields) (h : parseRaw12 values = some r) :
    (process_raw_data values error_count t_now).press = (0.02 * r.press_raw + 950) * 100 ∧
    (process_raw_data values error_count t_now).temp = (100 / 4000 : ℚ) * r.temp - 50 ∧
    (process_raw_data values error_count t_now).rh = (100 / 4000 : ℚ) * r.rh ∧
    (process_raw_data values error_count t_now).u = r.u ∧
    (process_raw_data values error_count t_now).v = r.v ∧
    (process_raw_data values error_count t_now).w = r.w ∧
    (process_raw_data values error_count t_now).d2 = r.d2 ∧
    (process_raw_data values error_count t_now).d3 = r.d3 ∧
    (process_raw_data values error_count t_now).az = r.az ∧
    (process_raw_data values error_count t_now).ele = r.ele ∧
    (process_raw_data values error_count t_now).sonic = r.sonic := by
  unfold process_raw_data
  rw [h]
  exact ⟨rfl, by ring, by ring, rfl, rfl, rfl, rfl, rfl, rfl, rfl, rfl⟩

/-- C5 witness: the calibration equations evaluated on a concrete line. -/
theorem claim5_witness :
    (process_raw_data demoValues 7 0).press = (0.02 * 3000 + 950) * 100 ∧
    (process_raw_data demoValues 7 0).temp = (100 / 4000 : ℚ) * 2800 - 50 :=
  ⟨(claim5_calibration demoValues 7 0 demoRaw (by decide)).1,
   (claim5_calibration demoValues 7 0 demoRaw (by decide)).2.1⟩

/-- C9: when all twelve raw fields parse, the Error output is the parsed
12th field and the error_count argument is ignored; when parsing fails, all
eleven physical fields are 0 and Error is error_count + 1. The embedding is
a total function, matching that the Python function catches every
exception and returns normally. -/
theorem claim9_error_handling (values : List (List Char)) (error_count t_now : ℚ) :
    (∀ r : RawFields, parseRaw12 values = some r →
      (process_raw_data values error_count t_now).err = r.err_cnt ∧
      ∀ ec2 : ℚ, process_raw_data values ec2 t_now = process_raw_data values error_count t_now) ∧
    (parseRaw12 values = none →
      (process_raw_data values error_count t_now).u = 0 ∧
      (process_raw_data values error_count t_now).v = 0 ∧
      (process_raw_data values error_count t_now).w = 0 ∧
      (process_raw_data values error_count t_now).d2 = 0 ∧
      (process_raw_data values error_count t_now).d3 = 0 ∧
      (process_raw_data values error_count t_now).az = 0 ∧
      (process_raw_data values error_count t_now).ele = 0 ∧
      (process_raw_data values error_count t_now).press = 0 ∧
      (process_raw_data values error_count t_now).temp = 0 ∧
      (process_raw_data values error_count t_now).rh = 0 ∧
      (process_raw_data values error_count t_now).sonic = 0 ∧
      (process_raw_data values error_count t_now).err = error_count + 1) := by
  constructor
  · intro r h
    constructor
    · unfold process_raw_data; rw [h]
    · intro ec2; unfold process_raw_data; rw [h]
  · intro h
    unfold process_raw_data
    rw [h]
    exact ⟨rfl, rfl, rfl, rfl, rfl, rfl, rfl, rfl, rfl, rfl, rfl, rfl⟩

/-- C9 witness: a good line yields the sensor's own error count; a bad line
yields the incremented argument. -/
theorem claim9_witness :
    (process_raw_data demoValues 7 0).err = 0 ∧
    (process_raw_data badValues 7 0).err = 7 + 1 :=
  ⟨((claim9_error_handling demoValues 7 0).1 demoRaw (by decide)).1,
   ((claim9_error_handling badValues 7 0).2 (by decide)).2.2.2.2.2.2.2.2.2.2.2⟩

/-- C10: clean_sensor_value always returns a float-parseable string (a
non-string or an invalid string becomes "0.0"), hence mapping it over any
value list — as `SerialHandler.read_data` does — yields only
float-parseable strings. -/
theorem claim10_clean_always_float (printable : Char → Bool) (v : Option (List Char)) :
    (pyFloatParse? (clean_sensor_value printable v)).isSome = true ∧
    ∀ vals : List (List Char),
      ((vals.map (fun s => clean_sensor_value printable (some s))).all
        (fun s => (pyFloatParse? s).isSome)) = true := by
  have one : ∀ w : Option (List Char),
      (pyFloatParse? (clean_sensor_value printable w)).isSome = true := by
    intro w
    match w with
    | none =>
      show (pyFloatParse? "0.0".toList).isSome = true
      decide
    | some s =>
      show (pyFloatParse?
        (if is_valid_float_string printable (some (s.filter printable)) then s.filter printable
         else "0.0".toList)).isSome = true
      by_cases hv : is_valid_float_string printable (some (s.filter printable)) = true
      · rw [if_pos hv]
        have hv2 : (!((s.filter printable).filter printable).isEmpty &&
            matchFloatRe ((s.filter printable).filter printable)) = true := hv
        rw [filter_idem] at hv2
        exact matchFloatRe_parses _ ((Bool.and_eq_true _ _).mp hv2).2
      · rw [if_neg hv]
        show (pyFloatParse? "0.0".toList).isSome = true
        decide
  refine ⟨one v, fun vals => ?_⟩
  rw [List.all_eq_true]
  intro x hx
  simp only [List.mem_map] at hx
  obtain ⟨s, _, rfl⟩ := hx
  exact one (some s)

/-- C10 witness: a string with an embedded non-printable byte is cleaned to
a float-parseable string. -/
theorem claim10_witness :
    (pyFloatParse? (clean_sensor_value asciiPrintable (some "12\x01.5".toList))).isSome = true :=
  (claim10_clean_always_float asciiPrintable (some "12\x01.5".toList)).1

/-- C2 (amended): when a row is prepared for logging, every numeric field
including Error is rounded to 8 decimals; only the timestamp is excluded
from rounding and carried through unchanged. Shown for the
HighFrequencyLogger row and the StandardLogger fallback row, both of which
go through `prepare_data_for_logging`. -/
theorem claim2_amended (pv ld : ProcessedValues) (ts : ℚ) :
    ((hfRow pv).lookup "tNow" = some pv.tNow ∧
     (hfRow pv).lookup "u_m_s" = some (round8 pv.u) ∧
     (hfRow pv).lookup "v_m_s" = some (round8 pv.v) ∧
     (hfRow pv).lookup "w_m_s" = some (round8 pv.w) ∧
     (hfRow pv).lookup "2dSpeed_m_s" = some (round8 pv.d2) ∧
     (hfRow pv).lookup "3DSpeed_m_s" = some (round8 pv.d3) ∧
     (hfRow pv).lookup "Azimuth_deg" = some (round8 pv.az) ∧
     (hfRow pv).lookup "Elev_deg" = some (round8 pv.ele) ∧
     (hfRow pv).lookup "Press_Pa" = some (round8 pv.press) ∧
     (hfRow pv).lookup "Temp_C" = some (round8 pv.temp) ∧
     (hfRow pv).lookup "Hum_RH" = some (round8 pv.rh) ∧
     (hfRow pv).lookup "SonicTemp_C" = some (round8 pv.sonic) ∧
     (hfRow pv).lookup "Error" = some (round8 pv.err)) ∧
    ((standardLastRow ld ts).lookup "tNow" = some ts ∧
     (standardLastRow ld ts).lookup "u_m_s" = some (round8 ld.u) ∧
     (standardLastRow ld ts).lookup "Error" = some (round8 ld.err)) :=
  ⟨⟨rfl, rfl, rfl, rfl, rfl, rfl, rfl, rfl, rfl, rfl, rfl, rfl, rfl⟩, ⟨rfl, rfl, rfl⟩⟩

set_option maxRecDepth 100000 in
/-- C2 counterexample: the Error field is not carried through with its
original value — a sample whose error count is 10⁻⁹ is logged as a rounded
Error, because "Error" is in `keys_to_round`. -/
theorem claim2_counterexample :
    (hfRow cexTinyErr).lookup "Error" ≠ some cexTinyErr.err := by decide

/-- C1 (amended): at a persist tick where the pre-drain window holds ≥ 32
samples, the output row holds per field the rounded mean over the samples
of the earliest wall-clock-second bucket of the window; whenever all window
samples lie in the same wall-clock second (the hypothesis here) this equals
the rounded arithmetic mean over all entries of the window, and the Error
field is the most recently appended sample's error value (rounded, never
averaged). -/
theorem claim1_amended (window : List ProcessedValues) (ld : ProcessedValues) (ts : ℚ)
    (h32 : 32 ≤ window.length)
    (hsame : ∀ r ∈ window, sec r.tNow = minSecond window) :
    (standard_iteration window [] (some ld) ts).row = some (standardAvgRow window ld ts) ∧
    (standardAvgRow window ld ts).lookup "tNow" = some ts ∧
    (standardAvgRow window ld ts).lookup "u_m_s" =
      some (round8 (meanQ (window.map ProcessedValues.u))) ∧
    (standardAvgRow window ld ts).lookup "v_m_s" =
      some (round8 (meanQ (window.map ProcessedValues.v))) ∧
    (standardAvgRow window ld ts).lookup "w_m_s" =
      some (round8 (meanQ (window.map ProcessedValues.w))) ∧
    (standardAvgRow window ld ts).lookup "2dSpeed_m_s" =
      some (round8 (meanQ (window.map ProcessedValues.d2))) ∧
    (standardAvgRow window ld ts).lookup "3DSpeed_m_s" =
      some (round8 (meanQ (window.map ProcessedValues.d3))) ∧
    (standardAvgRow window ld ts).lookup "Azimuth_deg" =
      some (round8 (meanQ (window.map ProcessedValues.az))) ∧
    (standardAvgRow window ld ts).lookup "Elev_deg" =
      some (round8 (meanQ (window.map ProcessedValues.ele))) ∧
    (standardAvgRow window ld ts).lookup "Press_Pa" =
      some (round8 (meanQ (window.map ProcessedValues.press))) ∧
    (standardAvgRow window ld ts).lookup "Temp_C" =
      some (round8 (meanQ (window.map ProcessedValues.temp))) ∧
    (standardAvgRow window ld ts).lookup "Hum_RH" =
      some (round8 (meanQ (window.map ProcessedValues.rh))) ∧
    (standardAvgRow window ld ts).lookup "SonicTemp_C" =
      some (round8 (meanQ (window.map ProcessedValues.sonic))) ∧
    (standardAvgRow window ld ts).lookup "Error" = some (round8 ld.err) := by
  have hfb := firstBucket_of_same window hsame
  have hrow : (standard_iteration window [] (some ld) ts).row =
      some (standardAvgRow window ld ts) := by
    simp [standard_iteration, decide_eq_true h32]
  refine ⟨hrow, ?_⟩
  unfold standardAvgRow
  rw [hfb]
  exact ⟨rfl, rfl, rfl, rfl, rfl, rfl, rfl, rfl, rfl, rfl, rfl, rfl, rfl⟩

set_option maxRecDepth 1000000 in
/-- C1 witness: on a 32-sample window inside one wall-clock second the
persisted u value is the rounded mean of all 32 u values. -/
theorem claim1_witness :
    (standardAvgRow sameSecWindow sameSecSample 5).lookup "u_m_s" =
      some (round8 (meanQ (sameSecWindow.map ProcessedValues.u))) :=
  (claim1_amended sameSecWindow sameSecSample 5 (by decide) (by decide)).2.2.1

set_option maxRecDepth 1000000 in
/-- C1 counterexample: on a 32-sample window straddling a second boundary
(16 samples with u = 0 in second 0, 16 with u = 2 in second 1) the
persisted u value is the first bucket's mean 0, not the window mean 1 —
the code's resample is a wall-clock-aligned bucket, not the claimed
fixed-size sliding-window mean. -/
theorem claim1_counterexample :
    ((standard_iteration cexWindow [] (some cexLate) 5).row.bind (List.lookup "u_m_s")) ≠
      some (round8 (meanQ (cexWindow.map ProcessedValues.u))) := by decide

/-- C3: evaluating the code at the failing input. A mode-set datagram "-1"
arriving in mode 0 stores -1 and reports a change, after which the
StandardLogger persist condition (`sdl_mode.value == 0`) is false and the
high-frequency condition (`sdl_mode.value > 0`) is also false — no path
writes — even though the mode is displayed as "1 Hz" (standard), so the
claimed standard-mode logging for every v ≤ 0 does not hold on the code. -/
theorem claim3_negative_mode :
    (check_mode_command "-1".toList 0).newMode = -1 ∧
    (check_mode_command "-1".toList 0).changed = true ∧
    standard_writes (check_mode_command "-1".toList 0).newMode true = false ∧
    high_freq_writes (check_mode_command "-1".toList 0).newMode true = false ∧
    modeDisplay (check_mode_command "-1".toList 0).newMode = "1 Hz" := by decide

/-- C4 (amended): all producer pushes are non-blocking (total functions of
the queue state). The high-frequency and visualization queues follow the
claimed policy — non-blocking put, on full drain everything and retry once,
accepting the new sample whenever capacity is positive — but the standard
queue simply drops the sample on a full queue without draining or
retrying. All three policies keep the queue length at most the capacity. -/
theorem claim4_amended {α : Type} (q : BQueue α) (x : α)
    (hcap : 0 < q.cap) (hlen : q.items.length ≤ q.cap) :
    (q.items.length < q.cap →
      push_drain_retry q x = (⟨q.cap, q.items ++ [x]⟩, true) ∧
      push_standard_queue q x = (⟨q.cap, q.items ++ [x]⟩, true)) ∧
    (q.items.length = q.cap →
      push_drain_retry q x = (⟨q.cap, [x]⟩, true) ∧
      push_standard_queue q x = (q, false)) ∧
    (push_drain_retry q x).1.items.length ≤ q.cap ∧
    (push_standard_queue q x).1.items.length ≤ q.cap := by
  obtain ⟨cap, items⟩ := q
  simp only at hcap hlen ⊢
  by_cases hlt : items.length < cap
  · have hput : put_nowait (⟨cap, items⟩ : BQueue α) x = some ⟨cap, items ++ [x]⟩ := by
      unfold put_nowait
      rw [if_pos hlt]
    have hd : push_drain_retry (⟨cap, items⟩ : BQueue α) x = (⟨cap, items ++ [x]⟩, true) := by
      unfold push_drain_retry
      rw [hput]
    have hs : push_standard_queue (⟨cap, items⟩ : BQueue α) x = (⟨cap, items ++ [x]⟩, true) := by
      unfold push_standard_queue
      rw [hput]
    refine ⟨fun _ => ⟨hd, hs⟩, fun heq => absurd heq (by omega), ?_, ?_⟩
    · rw [hd]; simp; omega
    · rw [hs]; simp; omega
  · have heq : items.length = cap := by omega
    have hput : put_nowait (⟨cap, items⟩ : BQueue α) x = none := by
      unfold put_nowait
      rw [if_neg hlt]
    have hput2 : put_nowait (⟨cap, ([] : List α)⟩ : BQueue α) x = some ⟨cap, [x]⟩ := by
      unfold put_nowait
      rw [if_pos (by simpa using hcap)]
      rfl
    have hd : push_drain_retry (⟨cap, items⟩ : BQueue α) x = (⟨cap, [x]⟩, true) := by
      unfold push_drain_retry
      rw [hput, hput2]
    have hs : push_standard_queue (⟨cap, items⟩ : BQueue α) x = (⟨cap, items⟩, false) := by
      unfold push_standard_queue
      rw [hput]
    refine ⟨fun hc => absurd hc (by omega), fun _ => ⟨hd, hs⟩, ?_, ?_⟩
    · rw [hd]; simpa using hcap
    · rw [hs]; simpa using hlen

/-- C4 witness: a non-full drain-retry queue accepts by plain append. -/
theorem claim4_witness :
    push_drain_retry (⟨2, [qSampleA]⟩ : BQueue ProcessedValues) qSampleB =
      (⟨2, [qSampleA, qSampleB]⟩, true) :=
  ((claim4_amended (⟨2, [qSampleA]⟩ : BQueue ProcessedValues) qSampleB (by decide)
    (by decide)).1 (by decide)).1

/-- C4 counterexample: on a full standard queue the sample is dropped and
the stale item kept, while the claimed drain-and-retry policy (used by the
other two queues) would have replaced it — the uniform three-queue policy
stated by the claim does not hold for the standard queue. -/
theorem claim4_counterexample :
    push_standard_queue (⟨1, [qSampleA]⟩ : BQueue ProcessedValues) qSampleB =
      ((⟨1, [qSampleA]⟩ : BQueue ProcessedValues), false) ∧
    push_drain_retry (⟨1, [qSampleA]⟩ : BQueue ProcessedValues) qSampleB =
      ((⟨1, [qSampleB]⟩ : BQueue ProcessedValues), true) ∧
    (⟨1, [qSampleA]⟩ : BQueue ProcessedValues) ≠ ⟨1, [qSampleB]⟩ := by decide

/-- The writer invariant is preserved by every event. -/
theorem dlInv_step (s : DLState) (e : LogEvent) (h : dlInv s) : dlInv (stepDL s e) := by
  obtain ⟨⟨h1a, h1b⟩, h2, h3, h4⟩ := h
  cases e with
  | rotate pre =>
    refine ⟨⟨by simp [stepDL, open_new_logfile, headerOk], by simp [stepDL, open_new_logfile]⟩,
      by simp [stepDL, open_new_logfile], by simp [stepDL, open_new_logfile], ?_⟩
    intro f hf
    simp only [stepDL, open_new_logfile, List.mem_cons] at hf
    rcases hf with rfl | hf
    · exact ⟨h1a, h1b⟩
    · exact h4 f hf
  | write =>
    by_cases hf : s.first_log_line = true
    · have hw0 : s.cur.headerWrites = 0 := h2 hf
      by_cases hex : s.file_exists = true
      · have hstep : stepDL s LogEvent.write = { s with cur := { s.cur with rowWrites := s.cur.rowWrites + 1 }, first_log_line := false } := by
          simp [stepDL, hf, hex]
        rw [hstep]
        exact ⟨⟨h1a, h1b⟩, fun hq => absurd hq Bool.false_ne_true, h3, h4⟩
      · have hexf : s.file_exists = false := by
          cases hxx : s.file_exists
          · rfl
          · exact absurd hxx hex
        have hstep : stepDL s LogEvent.write = { s with cur := { s.cur with headerWrites := s.cur.headerWrites + 1, rowWrites := s.cur.rowWrites + 1 }, first_log_line := false } := by
          simp [stepDL, hf, hexf]
        rw [hstep]
        have hpre : s.cur.preExisted = false := by rw [← h3]; exact hexf
        refine ⟨⟨by simp [hw0], fun hq => ?_⟩,
          fun hq => absurd hq Bool.false_ne_true, h3, h4⟩
        have hqq : s.cur.preExisted = true := hq
        rw [hpre] at hqq
        exact absurd hqq Bool.false_ne_true
    · have hff : s.first_log_line = false := by
        cases hxx : s.first_log_line
        · rfl
        · exact absurd hxx hf
      have hstep : stepDL s LogEvent.write = { s with cur := { s.cur with rowWrites := s.cur.rowWrites + 1 } } := by
        simp [stepDL, hff]
      rw [hstep]
      exact ⟨⟨h1a, h1b⟩, fun hq => h2 hq, h3, h4⟩

/-- C6: over any event sequence, every file instance (current or closed)
received its CSV header at most once, and a pre-existing file never
received a header at all. -/
theorem claim6_header_once (pre : Bool) (evs : List LogEvent) :
    headerOk (runDL pre evs).cur ∧ ∀ f ∈ (runDL pre evs).closed, headerOk f := by
  have hinit : dlInv (initDL pre) := by
    refine ⟨⟨by simp [initDL, headerOk], by simp [initDL, headerOk]⟩,
      by simp [initDL], by simp [initDL], by simp [initDL]⟩
  have hfold : ∀ (l : List LogEvent) (s : DLState), dlInv s → dlInv (l.foldl stepDL s) := by
    intro l
    induction l with
    | nil => exact fun s hs => hs
    | cons e t ih => exact fun s hs => ih (stepDL s e) (dlInv_step s e hs)
  have h := hfold evs (initDL pre) hinit
  exact ⟨h.1, h.2.2.2⟩

/-- C6 witness: concrete traces — a resumed file and a rotated fresh
file — both satisfy the header discipline. -/
theorem claim6_witness :
    headerOk (runDL true [LogEvent.write, LogEvent.write]).cur ∧
    headerOk (runDL false [LogEvent.write, LogEvent.rotate false, LogEvent.write]).cur :=
  ⟨(claim6_header_once true [LogEvent.write, LogEvent.write]).1,
   (claim6_header_once false [LogEvent.write, LogEvent.rotate false, LogEvent.write]).1⟩

/-- C7: a datagram whose payload uppercases to STATUS leaves the mode
unchanged, reports no mode change, and composes the reply
CURRENT_MODE:32Hz when the mode value is positive (HIGH_FREQUENCY) and
CURRENT_MODE:1Hz otherwise. -/
theorem claim7_status_reply (cmd : List Char) (m : ℚ)
    (h : cmd.map Char.toUpper = "STATUS".toList) :
    (check_mode_command cmd m).newMode = m ∧
    (check_mode_command cmd m).changed = false ∧
    (0 < m → (check_mode_command cmd m).statusReply = some "CURRENT_MODE:32Hz".toList) ∧
    (¬ 0 < m → (check_mode_command cmd m).statusReply = some "CURRENT_MODE:1Hz".toList) := by
  unfold check_mode_command
  rw [if_pos h]
  refine ⟨rfl, rfl, fun hm => ?_, fun hm => ?_⟩
  · rw [if_pos hm]
    rfl
  · rw [if_neg hm]
    rfl

/-- C7 witness: mixed-case STATUS in both modes. -/
theorem claim7_witness :
    (check_mode_command "sTaTus".toList 3).statusReply = some "CURRENT_MODE:32Hz".toList ∧
    (check_mode_command "STATUS".toList 0).statusReply = some "CURRENT_MODE:1Hz".toList ∧
    (check_mode_command "sTaTus".toList 3).newMode = 3 ∧
    (check_mode_command "sTaTus".toList 3).changed = false :=
  ⟨(claim7_status_reply "sTaTus".toList 3 (by decide)).2.2.1 (by norm_num),
   (claim7_status_reply "STATUS".toList 0 (by decide)).2.2.2 (by norm_num),
   (claim7_status_reply "sTaTus".toList 3 (by decide)).1,
   (claim7_status_reply "sTaTus".toList 3 (by decide)).2.1⟩

/-- C8: a mode-set datagram carrying the currently stored numeric value is
a no-op for any number of repetitions — the mode is unchanged and no call
reports a mode change. -/
theorem claim8_idempotent (cmd : List Char) (m : ℚ)
    (hs : ¬ cmd.map Char.toUpper = "STATUS".toList)
    (hv : pyFloatParse? cmd = some m) :
    ∀ n : ℕ, repeat_mode_command cmd n m = (m, false) := by
  have hstep : check_mode_command cmd m = ⟨m, false, none⟩ := by
    unfold check_mode_command
    rw [if_neg hs, hv]
    simp
  intro n
  induction n with
  | zero => rfl
  | succ k ih => simp [repeat_mode_command, hstep, ih]

/-- C8 witness: resending "0" five times in mode 0 changes nothing. -/
theorem claim8_witness : repeat_mode_command "0".toList 5 0 = (0, false) :=
  claim8_idempotent "0".toList 0 (by decide) (by decide) 5

end ClaimProofs

end WeatherLogger
